import Mathlib

/-!
Verification development for the teaching image editor
(HIT137 Assignment 3): a shallow embedding of the undo/redo
History Engine (`FilterManager` in
`image-editor/manager/filter_manager.py`), the `Image` document model
(`processors/models/image.py`), the filter transforms
(`image_processor.py`) and the slider preview/commit logic of the GUI
(`image-editor/gui/main_window.py`).

Machine integers of the source are Python ints (unbounded), so they are
embedded as `Int`/`Nat`; numpy arrays are embedded as `Buffer` values
(shape plus flat pixel data) with value semantics, which is faithful
because every hand-off in the source goes through `ndarray.copy()`.
Filter transforms that end in a single external `cv2` call are embedded
parametrically (the `cv2` call is a function argument) or, where only the
library's documented shape contract matters, by a stand-in that models
that contract.  Python exceptions are embedded as `Except String`.
-/

/-- An in-memory pixel buffer: `numpy.ndarray` of shape
`height × width × channels` with 8-bit samples, flattened row-major into
`data`.  `ndarray.size` is the product of the shape. -/
structure Buffer where
  height : Nat
  width : Nat
  channels : Nat
  data : List Nat
deriving DecidableEq, Repr

/-- `ndarray.size`: the product of the shape dimensions. -/
def Buffer.size (b : Buffer) : Nat :=
  b.height * b.width * b.channels

/-- `ImageProcessor.validate_image`: the input is a non-None ndarray with
`size > 0`.  In the embedding a `Buffer` is structurally present, so only
the size test remains. -/
def validate_image (b : Buffer) : Bool :=
  decide (0 < b.size)

/-- The `Image` document model (`processors/models/image.py`): original
buffer, current working buffer, and cached `_width`/`_height` taken from
`shape[:2]` of the most recently assigned current buffer. -/
structure Image where
  filepath : String
  original : Buffer
  current : Buffer
  width : Nat
  height : Nat
deriving DecidableEq, Repr

/-- The `Image.current_image` property setter: stores a copy of the new
buffer and recomputes `_height, _width = image.shape[:2]`.  The original
buffer is untouched. -/
def Image.setCurrent (img : Image) (b : Buffer) : Image :=
  { img with current := b, height := b.height, width := b.width }

/-- `Image._load_image` after a successful `cv2.imread`: both the original
and the current buffer are copies of the decoded buffer and the cached
dimensions come from its shape. -/
def Image.load (filepath : String) (decoded : Buffer) : Image :=
  { filepath := filepath, original := decoded, current := decoded,
    width := decoded.width, height := decoded.height }

/-- A registered filter object as the manager sees it: its display
`name` and its `apply` method.  `apply` receives the current buffer and
the keyword-argument bag (of type `α`, abstract because each concrete
filter has its own parameters) and either returns the processed buffer or
raises (`Except.error`). -/
structure FilterEntry (α : Type) where
  name : String
  transform : Buffer → α → Except String Buffer

/-- The `FilterRegistry._registry` dict: an insertion-ordered association
list from key to filter object. -/
abbrev Registry (α : Type) := List (String × FilterEntry α)

/-- `FilterRegistry.get_filter`: `self._registry.get(key)`. -/
def get_filter (reg : Registry α) (key : String) : Option (FilterEntry α) :=
  (reg.find? (fun e => e.1 == key)).map (·.2)

/-- `FilterRegistry.register_filter`: dict assignment — replaces the value
in place when the key exists, otherwise appends a new binding. -/
def register_filter (reg : Registry α) (key : String) (f : FilterEntry α) :
    Registry α :=
  if reg.any (fun e => e.1 == key) then
    reg.map (fun e => if e.1 == key then (key, f) else e)
  else
    reg ++ [(key, f)]

/-- `FilterRegistry.list_filters`: the keys in insertion order. -/
def list_filters (reg : Registry α) : List String :=
  reg.map (·.1)

/-- The full state of a `FilterManager` (multiple inheritance from
`FilterRegistry` and `HistoryTracker` flattened into one record):
the registry, the `HistoryTracker._history` operation log, the optional
current `Image`, and the undo/redo stacks of buffer snapshots.
Python list `append`/`pop` work at the END of the list, so the most
recent stack entry is last. -/
structure ManagerState (α : Type) where
  registry : Registry α
  history : List String
  currentImage : Option Image
  undoStack : List Buffer
  redoStack : List Buffer

/-- `HistoryTracker.add_to_history`: append one description. -/
def add_to_history (m : ManagerState α) (op : String) : ManagerState α :=
  { m with history := m.history ++ [op] }

/-- `HistoryTracker.clear_history`. -/
def clear_history (m : ManagerState α) : ManagerState α :=
  { m with history := [] }

/-- The `FilterManager.current_image` property setter: stores the new
image and clears the undo and redo stacks.  (It does not touch the
operation log.) -/
def set_current_image (m : ManagerState α) (img : Image) : ManagerState α :=
  { m with currentImage := some img, undoStack := [], redoStack := [] }

/-- The log line built by `apply_filter`:
`f"Applied {filter_obj.name}"` plus, when kwargs were given,
`f" with params: {kwargs}"` (the kwargs rendering is carried as an opaque
string). -/
def operationLine (name : String) (kwargsDesc : Option String) : String :=
  "Applied " ++ name ++
    (match kwargsDesc with
     | some s => " with params: " ++ s
     | none => "")

/-- `FilterManager.apply_filter`, step for step:
no current image ⇒ `False`; unknown key ⇒ `False`; otherwise push the
current buffer on the undo stack, clear the redo stack, run the filter;
if the filter raises, pop the snapshot just pushed (the redo stack stays
cleared) and return `False`; on success replace the document buffer via
the `Image.current_image` setter, append one log line and return `True`.
Returns the new manager state together with the boolean result. -/
def apply_filter (m : ManagerState α) (key : String) (kwargs : α)
    (kwargsDesc : Option String) : ManagerState α × Bool :=
  match m.currentImage with
  | none => (m, false)
  | some img =>
    match get_filter m.registry key with
    | none => (m, false)
    | some f =>
      let undo1 := m.undoStack ++ [img.current]
      match f.transform img.current kwargs with
      | Except.error _ =>
        ({ m with undoStack := undo1.dropLast, redoStack := [] }, false)
      | Except.ok processed =>
        ({ m with
            undoStack := undo1,
            redoStack := [],
            currentImage := some (img.setCurrent processed),
            history := m.history ++ [operationLine f.name kwargsDesc] },
         true)

/-- `FilterManager.undo`: fails when the undo stack is empty or there is
no image; otherwise pushes the current buffer on the redo stack, pops the
top (last) undo snapshot and installs it as the current buffer. -/
def undo (m : ManagerState α) : ManagerState α × Bool :=
  match m.undoStack.getLast?, m.currentImage with
  | some prev, some img =>
    ({ m with
        redoStack := m.redoStack ++ [img.current],
        undoStack := m.undoStack.dropLast,
        currentImage := some (img.setCurrent prev) }, true)
  | _, _ => (m, false)

/-- `FilterManager.redo`: symmetric to `undo`. -/
def redo (m : ManagerState α) : ManagerState α × Bool :=
  match m.redoStack.getLast?, m.currentImage with
  | some nxt, some img =>
    ({ m with
        undoStack := m.undoStack ++ [img.current],
        redoStack := m.redoStack.dropLast,
        currentImage := some (img.setCurrent nxt) }, true)
  | _, _ => (m, false)

/-- `FilterManager.can_undo`. -/
def can_undo (m : ManagerState α) : Bool :=
  !m.undoStack.isEmpty

/-- `FilterManager.can_redo`. -/
def can_redo (m : ManagerState α) : Bool :=
  !m.redoStack.isEmpty

/-- The document buffer currently displayed, if any. -/
def currentBuffer (m : ManagerState α) : Option Buffer :=
  m.currentImage.map (·.current)

/-- Iterated `undo`, keeping only the state. -/
def undoN (m : ManagerState α) : Nat → ManagerState α
  | 0 => m
  | n + 1 => undoN (undo m).1 n

/-- A sequence of `apply_filter` calls, each given as
(key, kwargs, kwargs description).  Returns the final state and the
conjunction of all the boolean results. -/
def applySeq (m : ManagerState α) :
    List (String × α × Option String) → ManagerState α × Bool
  | [] => (m, true)
  | op :: ops =>
    let r := apply_filter m op.1 op.2.1 op.2.2
    let rest := applySeq r.1 ops
    (rest.1, r.2 && rest.2)

/-- The kernel size computed by `BlurFilter.apply`:
`max(1, intensity if intensity % 2 == 1 else intensity + 1)`.
Python `%` on ints agrees with `Int.emod` for a positive modulus. -/
def blur_kernel_size (intensity : Int) : Int :=
  max 1 (if intensity % 2 == 1 then intensity else intensity + 1)

/-- `BlurFilter.apply` (default `intensity = 5`): validates the image,
computes the odd kernel size and makes a single `cv2.GaussianBlur` call.
The Gaussian convolution itself is external, so it is a parameter
`gaussianBlur`, applied to the buffer and the kernel size. -/
def blur_filter_apply (gaussianBlur : Buffer → Int → Buffer) (b : Buffer)
    (intensity : Int) : Except String Buffer :=
  if validate_image b then
    Except.ok (gaussianBlur b (blur_kernel_size intensity))
  else
    Except.error "Invalid image for blur"

/-- The kwargs of `ResizeFilter.apply`: `width`/`height` default to
`None`, `scale` defaults to `1.0`.  Python floats on these code paths are
embedded as `Rat`. -/
structure ResizeParams where
  width : Option Int := none
  height : Option Int := none
  scale : Rat := 1
deriving Repr

/-- Python truthiness of an `Optional[int]`: `None` and `0` are falsy. -/
def truthyOptInt : Option Int → Bool
  | none => false
  | some n => n != 0

/-- Python `int(...)` on a rational value: truncation toward zero
(`Int` division in Lean is T-division, matching CPython). -/
def pyInt (q : Rat) : Int :=
  q.num.tdiv (q.den : Int)

/-- Modelled from the spec: `cv2.resize` is an external library call that
the spec (§2, §4.2) treats as an out-of-scope collaborator with an
input/output contract only — the output buffer has exactly the requested
`width × height` shape (and the input's channel count), and the call
raises for a non-positive requested size.  The resampled pixel content is
not specified, so it is modelled as zero samples; no claim depends on it
(the concrete inputs used below are zero buffers, for which zero output
is also the true `cv2` behavior). -/
def cv2_resize (b : Buffer) (w h : Int) : Except String Buffer :=
  if 0 < w ∧ 0 < h then
    Except.ok { height := h.toNat, width := w.toNat, channels := b.channels,
                data := List.replicate (h.toNat * w.toNat * b.channels) 0 }
  else
    Except.error "cv2.resize: invalid requested size"

/-- `ResizeFilter.apply`: validates the image; `if width and height:`
(Python truthiness) resizes to the absolute size, otherwise to
`(int(shape[1]*scale), int(shape[0]*scale))`. -/
def resize_filter_apply (b : Buffer) (p : ResizeParams) :
    Except String Buffer :=
  if validate_image b then
    if truthyOptInt p.width && truthyOptInt p.height then
      cv2_resize b (p.width.getD 0) (p.height.getD 0)
    else
      cv2_resize b (pyInt ((b.width : Rat) * p.scale))
                   (pyInt ((b.height : Rat) * p.scale))
  else
    Except.error "Invalid image for resize"

/-- The GUI state relevant to the preview/commit logic of
`ImageEditorApp` (`image-editor/gui/main_window.py`): the embedded
`FilterManager`, the `_original_for_sliders` baseline buffer, and the
four slider values.  In the source `self._image` and
`self._filter_manager._current_image` are the same Python object, so the
document is stored once, in `fm.currentImage`.  Slider `.set` is
embedded as a plain value change (widget-callback chaining is toolkit
behavior, out of the spec's scope). -/
structure AppState (α : Type) where
  fm : ManagerState α
  originalForSliders : Option Buffer
  blurSlider : Int
  brightnessSlider : Int
  contrastSlider : Rat
  resizeSlider : Int

/-- `ImageEditorApp._open_image` after a successful `Image(filepath)`
construction: installs the document in the manager (clearing undo/redo),
stores a copy of its current buffer as the slider baseline, and resets
the sliders to their defaults. -/
def open_image (app : AppState α) (filepath : String) (decoded : Buffer) :
    AppState α :=
  let img := Image.load filepath decoded
  { app with
      fm := set_current_image app.fm img,
      originalForSliders := some img.current,
      blurSlider := 1, brightnessSlider := 0,
      contrastSlider := 1, resizeSlider := 100 }

/-- `ImageEditorApp._on_brightness_change`: returns unchanged when no
image or no baseline is stored; otherwise looks up `"brightness"` in the
manager's registry and applies it to `_original_for_sliders` (the fixed
baseline, never the current buffer), installing the result as the
document's current buffer.  Any exception in the `try` block (including
the `AttributeError` from a missing registry entry) is caught and
logged, leaving the last good preview displayed. -/
def on_brightness_change (app : AppState α) (kwargs : α) : AppState α :=
  match app.fm.currentImage, app.originalForSliders with
  | some img, some base =>
    match get_filter app.fm.registry "brightness" with
    | none => app
    | some f =>
      match f.transform base kwargs with
      | Except.ok filtered =>
        { app with
            fm := { app.fm with currentImage := some (img.setCurrent filtered) } }
      | Except.error _ => app
  | _, _ => app

/-- `ImageEditorApp._commit_slider_changes`: returns unchanged when no
image is loaded; otherwise copies the document's current buffer into
`_original_for_sliders` and resets the four sliders to their defaults.
It performs no other state change: nothing is pushed to the undo stack,
the redo stack and the operation log are untouched. -/
def commit_slider_changes (app : AppState α) : AppState α :=
  match app.fm.currentImage with
  | none => app
  | some img =>
    { app with
        originalForSliders := some img.current,
        blurSlider := 1, brightnessSlider := 0,
        contrastSlider := 1, resizeSlider := 100 }

/-- Concrete input: a 2×2 3-channel zero buffer (as decoded by
`cv2.imread` from a black 2×2 image). -/
def bufA : Buffer := ⟨2, 2, 3, List.replicate 12 0⟩

/-- Concrete input: the buffer `bufA` brightened by +10 per sample. -/
def bufB : Buffer := ⟨2, 2, 3, List.replicate 12 10⟩

/-- Concrete input: the document obtained by loading `bufA`. -/
def imgA : Image := Image.load "photo.png" bufA

/-- Concrete registered filter standing for `BrightnessAdjustment`
called with `value=10` on 8-bit data far from the clip bounds: adds 10
to every sample and never raises on these inputs. -/
def brightenEntry : FilterEntry Unit :=
  ⟨"Brightness", fun b _ => Except.ok { b with data := b.data.map (· + 10) }⟩

/-- Concrete registered filter standing for `FlipFilter` called with a
non-string `direction` kwarg (e.g. `direction=5`): `direction.lower()`
raises `AttributeError` before any buffer is produced. -/
def flipBadKwargEntry : FilterEntry Unit :=
  ⟨"Flip", fun _ _ => Except.error "AttributeError"⟩

/-- Concrete registry holding the two instantiated filters above. -/
def regA : Registry Unit := [("brightness", brightenEntry), ("flip", flipBadKwargEntry)]

/-- Concrete freshly constructed manager: registry populated, no image,
empty history and stacks (`FilterManager.__init__`). -/
def fmFresh : ManagerState Unit :=
  { registry := regA, history := [], currentImage := none,
    undoStack := [], redoStack := [] }

/-- Concrete manager after loading the document. -/
def fmLoaded : ManagerState Unit := set_current_image fmFresh imgA

/-- Concrete manager after one successful brightness apply. -/
def fmApplied : ManagerState Unit :=
  (apply_filter fmLoaded "brightness" () none).1

/-- Concrete manager after apply followed by undo: the redo stack is
non-empty here. -/
def fmUndone : ManagerState Unit := (undo fmApplied).1

/-- Concrete GUI state before any image is opened. -/
def appFresh : AppState Unit :=
  { fm := fmFresh, originalForSliders := none,
    blurSlider := 1, brightnessSlider := 0,
    contrastSlider := 1, resizeSlider := 100 }

/-- Concrete GUI state after opening the image. -/
def appOpened : AppState Unit := open_image appFresh "photo.png" bufA

/-- Concrete GUI state after one brightness preview update. -/
def appPreviewed : AppState Unit := on_brightness_change appOpened ()

/-- Concrete GUI state after committing the slider gesture. -/
def appCommitted : AppState Unit := commit_slider_changes appPreviewed

/-- Concrete document as it stands inside `appPreviewed`. -/
def imgAB : Image := imgA.setCurrent bufB

/-- Concrete registry for the resize scenario. -/
def regR : Registry ResizeParams := [("resize", ⟨"Resize", resize_filter_apply⟩)]

/-- Concrete fresh manager for the resize scenario. -/
def fmRFresh : ManagerState ResizeParams :=
  { registry := regR, history := [], currentImage := none,
    undoStack := [], redoStack := [] }

/-- Concrete resize-scenario manager with the 2×2 document loaded. -/
def fmR : ManagerState ResizeParams := set_current_image fmRFresh imgA

/-- Concrete kwargs `width=1, height=1` for `ResizeFilter.apply`. -/
def rzParams : ResizeParams := { width := some 1, height := some 1 }

/-- Concrete resize-scenario manager after the dimension-changing
committed resize. -/
def fmRApplied : ManagerState ResizeParams :=
  (apply_filter fmR "resize" rzParams (some "width=1, height=1")).1

/-- Inversion for a successful `apply_filter` call: the document was
present, the key was registered, the transform succeeded, and the
resulting state is exactly the input state with the old buffer pushed on
the undo stack, the redo stack cleared, the buffer replaced and one log
line appended. -/
lemma apply_filter_ok_inv {α : Type} {m m' : ManagerState α} {key : String}
    {kwargs : α} {kwargsDesc : Option String}
    (h : apply_filter m key kwargs kwargsDesc = (m', true)) :
    ∃ img f proc,
      m.currentImage = some img ∧
      get_filter m.registry key = some f ∧
      f.transform img.current kwargs = Except.ok proc ∧
      m' = { m with
              undoStack := m.undoStack ++ [img.current],
              redoStack := [],
              currentImage := some (img.setCurrent proc),
              history := m.history ++ [operationLine f.name kwargsDesc] } := by
  unfold apply_filter at h
  cases hci : m.currentImage with
  | none => rw [hci] at h; simp at h
  | some img =>
    rw [hci] at h
    cases hf : get_filter m.registry key with
    | none => rw [hf] at h; simp at h
    | some f =>
      rw [hf] at h
      simp only at h
      cases ht : f.transform img.current kwargs with
      | error e => rw [ht] at h; simp at h
      | ok proc =>
        rw [ht] at h
        injection h with h1 h2
        exact ⟨img, f, proc, rfl, rfl, ht, h1.symm⟩

/-- Inversion for a failed `apply_filter` call: the undo stack, the
document and the operation log are as before; the redo stack is either
untouched (failure before the `try` block) or cleared (the transform
raised inside the `try` block, where the redo stack had already been
cleared and is not restored). -/
lemma apply_filter_err_inv {α : Type} {m m' : ManagerState α} {key : String}
    {kwargs : α} {kwargsDesc : Option String}
    (h : apply_filter m key kwargs kwargsDesc = (m', false)) :
    m'.undoStack = m.undoStack ∧
    m'.currentImage = m.currentImage ∧
    m'.history = m.history ∧
    m'.registry = m.registry ∧
    (m'.redoStack = m.redoStack ∨ m'.redoStack = []) := by
  unfold apply_filter at h
  cases hci : m.currentImage with
  | none =>
    rw [hci] at h
    injection h with h1 h2
    subst h1
    exact ⟨rfl, hci, rfl, rfl, Or.inl rfl⟩
  | some img =>
    rw [hci] at h
    cases hf : get_filter m.registry key with
    | none =>
      rw [hf] at h
      injection h with h1 h2
      subst h1
      exact ⟨rfl, hci, rfl, rfl, Or.inl rfl⟩
    | some f =>
      rw [hf] at h
      simp only at h
      cases ht : f.transform img.current kwargs with
      | error e =>
        rw [ht] at h
        injection h with h1 h2
        subst h1
        refine ⟨?_, rfl, rfl, rfl, Or.inr rfl⟩
        simp
      | ok proc => rw [ht] at h; simp at h

/-- Shape of the state after a fully successful sequence of
`apply_filter` calls: the undo stack has grown by one snapshot per call,
the document is still present, and the oldest of the new snapshots is
the buffer that was current before the first call. -/
lemma applySeq_ok_inv {α : Type} :
    ∀ (ops : List (String × α × Option String)) (m : ManagerState α)
      (img : Image),
      m.currentImage = some img → (applySeq m ops).2 = true →
      ∃ (l : List Buffer) (img' : Image),
        (applySeq m ops).1.undoStack = m.undoStack ++ l ∧
        l.length = ops.length ∧
        (applySeq m ops).1.currentImage = some img' ∧
        l.headD img'.current = img.current := by
  intro ops
  induction ops with
  | nil =>
    intro m img h1 _
    exact ⟨[], img, by simp [applySeq], rfl, by simpa [applySeq] using h1, rfl⟩
  | cons op ops ih =>
    intro m img h1 h2
    have h2' : (apply_filter m op.1 op.2.1 op.2.2).2 = true ∧
        (applySeq (apply_filter m op.1 op.2.1 op.2.2).1 ops).2 = true := by
      simpa [applySeq, Bool.and_eq_true] using h2
    have hx : apply_filter m op.1 op.2.1 op.2.2 =
        ((apply_filter m op.1 op.2.1 op.2.2).1, true) :=
      Prod.ext rfl h2'.1
    obtain ⟨img0, f, proc, hci, hf, ht, hm1⟩ := apply_filter_ok_inv hx
    have himg0 : img0 = img := by
      rw [h1] at hci
      exact (Option.some.inj hci).symm
    subst himg0
    obtain ⟨l1, img', hstack, hlen, hci', hhead⟩ :=
      ih (apply_filter m op.1 op.2.1 op.2.2).1 (img0.setCurrent proc)
        (by rw [hm1]) h2'.2
    refine ⟨img0.current :: l1, img', ?_, ?_, ?_, ?_⟩
    · show (applySeq (apply_filter m op.1 op.2.1 op.2.2).1 ops).1.undoStack = _
      rw [hstack, hm1]
      simp
    · simpa using hlen
    · exact hci'
    · rfl

/-- Performing as many `undo` calls as there are entries in the suffix
`l` of the undo stack restores the oldest buffer of `l` as the current
buffer (or leaves the current buffer when `l` is empty). -/
lemma undoN_restore {α : Type} :
    ∀ (l s : List Buffer) (m : ManagerState α) (img : Image),
      m.undoStack = s ++ l → m.currentImage = some img →
      currentBuffer (undoN m l.length) = some (l.headD img.current) := by
  intro l
  induction l using List.reverseRecOn with
  | nil =>
    intro s m img h1 h2
    simp [undoN, currentBuffer, h2]
  | append_singleton l' b ih =>
    intro s m img h1 h2
    have hgl : m.undoStack.getLast? = some b := by
      rw [h1, ← List.append_assoc]
      exact List.getLast?_concat _
    have hdl : m.undoStack.dropLast = s ++ l' := by
      rw [h1, ← List.append_assoc]
      exact List.dropLast_concat
    have hu : (undo m).1 =
        { m with
            redoStack := m.redoStack ++ [img.current],
            undoStack := m.undoStack.dropLast,
            currentImage := some (img.setCurrent b) } := by
      unfold undo
      rw [hgl, h2]
    have hlen : (l' ++ [b]).length = l'.length + 1 := by simp
    rw [hlen]
    show currentBuffer (undoN (undo m).1 l'.length) = _
    have := ih s (undo m).1 (img.setCurrent b)
      (by rw [hu]; exact hdl) (by rw [hu])
    rw [this]
    cases l' with
    | nil => rfl
    | cons x xs => rfl

/-- C6: for every registry state and every key not present in the
filter registry, `apply_filter` returns failure and the whole manager
state — undo stack, redo stack, operation log and current image buffer —
is exactly unchanged. -/
theorem apply_filter_unknown_key_noop {α : Type} (m : ManagerState α)
    (key : String) (kwargs : α) (kwargsDesc : Option String)
    (h : get_filter m.registry key = none) :
    apply_filter m key kwargs kwargsDesc = (m, false) := by
  unfold apply_filter
  cases hci : m.currentImage with
  | none => rfl
  | some img => rw [h]

/-- C6 witness: the key `"sharpen"` is absent from the concrete registry
and applying it changes nothing. -/
theorem apply_filter_unknown_key_noop_witness :
    get_filter fmLoaded.registry "sharpen" = none ∧
    apply_filter fmLoaded "sharpen" () none = (fmLoaded, false) :=
  ⟨rfl, apply_filter_unknown_key_noop fmLoaded "sharpen" () none rfl⟩

/-- C10: for every filter key and parameter bag, `apply_filter` on a
manager with no loaded image returns `false` and leaves the whole state
unchanged: the no-document case is rejected before any state is
touched. -/
theorem apply_filter_no_document_noop {α : Type} (m : ManagerState α)
    (key : String) (kwargs : α) (kwargsDesc : Option String)
    (h : m.currentImage = none) :
    apply_filter m key kwargs kwargsDesc = (m, false) := by
  unfold apply_filter
  rw [h]

/-- C10 witness: a freshly constructed manager has no image and any
apply call is rejected without touching the (empty) stacks and log. -/
theorem apply_filter_no_document_noop_witness :
    fmFresh.currentImage = none ∧
    apply_filter fmFresh "blur" () none = (fmFresh, false) :=
  ⟨rfl, apply_filter_no_document_noop fmFresh "blur" () none rfl⟩

/-- C5: every successful committed edit leaves the redo stack empty, so
a `redo` issued immediately afterwards returns `false` and changes
nothing (linear undo: any new forward edit invalidates redo history). -/
theorem apply_success_invalidates_redo {α : Type} (m m' : ManagerState α)
    (key : String) (kwargs : α) (kwargsDesc : Option String)
    (h : apply_filter m key kwargs kwargsDesc = (m', true)) :
    m'.redoStack = [] ∧ redo m' = (m', false) := by
  obtain ⟨img, f, proc, hci, hf, ht, hm'⟩ := apply_filter_ok_inv h
  subst hm'
  exact ⟨rfl, rfl⟩

/-- C5 witness: after the concrete successful brightness apply the redo
stack is empty and `redo` is a no-op returning `false`. -/
theorem apply_success_invalidates_redo_witness :
    apply_filter fmLoaded "brightness" () none = (fmApplied, true) ∧
    fmApplied.redoStack = [] ∧ redo fmApplied = (fmApplied, false) :=
  ⟨rfl,
   apply_success_invalidates_redo fmLoaded fmApplied "brightness" () none rfl⟩

/-- C3 counterexample: replacing the document via the
`FilterManager.current_image` setter does NOT clear the append-only
operation log.  Starting from the concrete manager that performed one
logged apply, installing a new document leaves its one log entry in
place, contradicting the claim that all three history structures are
empty immediately afterwards. -/
theorem set_current_image_keeps_log_cex :
    fmApplied.history = ["Applied Brightness"] ∧
    (set_current_image fmApplied imgA).history = ["Applied Brightness"] ∧
    ("Applied Brightness" :: ([] : List String)) ≠ ([] : List String) := by
  refine ⟨?_, ?_, by decide⟩ <;> rfl

/-- C3 amended: on every assignment to `FilterManager.current_image` the
undo stack and the redo stack are cleared and the new document is
installed, but the operation log is left exactly as it was (it is never
cleared by a document replacement). -/
theorem set_current_image_spec {α : Type} (m : ManagerState α) (img : Image) :
    (set_current_image m img).undoStack = [] ∧
    (set_current_image m img).redoStack = [] ∧
    (set_current_image m img).currentImage = some img ∧
    (set_current_image m img).history = m.history ∧
    (set_current_image m img).registry = m.registry :=
  ⟨rfl, rfl, rfl, rfl, rfl⟩

/-- C1 counterexample: a failed apply is not free of observable state
change.  In the concrete manager whose redo stack is non-empty (after an
apply followed by an undo), applying the flip filter with a bad kwarg —
whose `apply` raises — returns failure but clears the redo stack, which
is not restored. -/
theorem apply_filter_failure_clears_redo_cex :
    fmUndone.redoStack = [bufB] ∧
    (apply_filter fmUndone "flip" () none).2 = false ∧
    (apply_filter fmUndone "flip" () none).1.redoStack = [] ∧
    ([] : List Buffer) ≠ [bufB] := by
  refine ⟨?_, ?_, ?_, by decide⟩ <;> decide

/-- C1 amended: `apply_filter` either fully succeeds — exactly one new
undo entry (the previous buffer), the redo stack cleared, the buffer
replaced by the transform's result and one history-log entry appended —
or it fails with the undo stack, the current image buffer and the
operation log exactly as they were; on failure, however, the redo stack
is not always preserved: it is unchanged when the call is rejected
before the transform runs (no document, unknown key) but cleared when
the transform itself raises. -/
theorem apply_filter_outcome {α : Type} (m : ManagerState α) (key : String)
    (kwargs : α) (kwargsDesc : Option String) (m' : ManagerState α) (r : Bool)
    (h : apply_filter m key kwargs kwargsDesc = (m', r)) :
    (r = true →
      ∃ img f proc,
        m.currentImage = some img ∧
        get_filter m.registry key = some f ∧
        f.transform img.current kwargs = Except.ok proc ∧
        m'.undoStack = m.undoStack ++ [img.current] ∧
        m'.redoStack = [] ∧
        m'.history = m.history ++ [operationLine f.name kwargsDesc] ∧
        m'.currentImage = some (img.setCurrent proc)) ∧
    (r = false →
      m'.undoStack = m.undoStack ∧
      m'.currentImage = m.currentImage ∧
      m'.history = m.history ∧
      (m'.redoStack = m.redoStack ∨ m'.redoStack = [])) := by
  constructor
  · intro hr
    subst hr
    obtain ⟨img, f, proc, hci, hf, ht, hm'⟩ := apply_filter_ok_inv h
    subst hm'
    exact ⟨img, f, proc, hci, hf, ht, rfl, rfl, rfl, rfl⟩
  · intro hr
    subst hr
    obtain ⟨h1, h2, h3, _, h5⟩ := apply_filter_err_inv h
    exact ⟨h1, h2, h3, h5⟩

/-- C1 witness: the amended failure clause evaluated on the concrete
raising apply — undo stack, buffer and log are untouched and the redo
stack lands in the "cleared" disjunct. -/
theorem apply_filter_outcome_witness :
    (apply_filter fmUndone "flip" () none).1.undoStack = fmUndone.undoStack ∧
    (apply_filter fmUndone "flip" () none).1.currentImage =
      fmUndone.currentImage ∧
    (apply_filter fmUndone "flip" () none).1.history = fmUndone.history ∧
    ((apply_filter fmUndone "flip" () none).1.redoStack = fmUndone.redoStack ∨
      (apply_filter fmUndone "flip" () none).1.redoStack = []) :=
  (apply_filter_outcome fmUndone "flip" () none
    (apply_filter fmUndone "flip" () none).1 false rfl).2 rfl

/-- C4: for every sequence of successful `apply_filter` calls starting
from a loaded image, performing as many `undo` calls afterwards leaves
the document's current buffer pixel-equal to the buffer present before
the first apply. -/
theorem apply_then_undo_roundtrip {α : Type} (m : ManagerState α)
    (img : Image) (ops : List (String × α × Option String))
    (h1 : m.currentImage = some img) (h2 : (applySeq m ops).2 = true) :
    currentBuffer (undoN (applySeq m ops).1 ops.length) = some img.current := by
  obtain ⟨l, img', hstack, hlen, hci, hhead⟩ := applySeq_ok_inv ops m img h1 h2
  have h := undoN_restore l m.undoStack ((applySeq m ops).1) img' hstack hci
  rw [← hlen, h, hhead]

/-- C4 witness: two successful brightness applies followed by two undos
restore the originally loaded zero buffer. -/
theorem apply_then_undo_roundtrip_witness :
    fmLoaded.currentImage = some imgA ∧
    (applySeq fmLoaded
        [("brightness", (), none), ("brightness", (), none)]).2 = true ∧
    currentBuffer
        (undoN (applySeq fmLoaded
          [("brightness", (), none), ("brightness", (), none)]).1 2) =
      some imgA.current :=
  ⟨rfl, by decide,
   apply_then_undo_roundtrip fmLoaded imgA
     [("brightness", (), none), ("brightness", (), none)] rfl (by decide)⟩

/-- Oddness bound for the blur kernel: whatever integer intensity is
passed, the computed Gaussian kernel size is an odd number ≥ 1. -/
lemma blur_kernel_size_odd (j : Int) :
    blur_kernel_size j % 2 = 1 ∧ 1 ≤ blur_kernel_size j := by
  have h2 : j % 2 = 0 ∨ j % 2 = 1 := by omega
  rcases h2 with h | h
  · simp only [blur_kernel_size, h]
    norm_num
    rcases le_total 1 (j + 1) with h1 | h1
    · rw [max_eq_right h1]; omega
    · rw [max_eq_left h1]; omega
  · simp only [blur_kernel_size, h]
    norm_num
    rcases le_total 1 j with h1 | h1
    · rw [max_eq_right h1]; omega
    · rw [max_eq_left h1]; omega

/-- C7 counterexample: the claim's general clause "for every even
intensity k the effective kernel size equals k+1" fails for negative
even intensities: `intensity = -4` is even but the kernel size is
clamped to 1, not -3. -/
theorem blur_kernel_negative_even_cex :
    (-4 : Int) % 2 = 0 ∧
    blur_kernel_size (-4) = 1 ∧
    blur_kernel_size (-4) ≠ (-4 : Int) + 1 := by
  decide

/-- C7 amended: for every image buffer, `BlurFilter.apply` with
`intensity=4` returns the same result as with `intensity=5`; for every
even intensity k ≥ 0 the effective kernel size is k+1 (negative even
intensities clamp to 1); and the kernel size is always an odd number
≥ 1. -/
theorem blur_even_intensity_promotion
    (gaussianBlur : Buffer → Int → Buffer) (b : Buffer) (k j : Int)
    (hk : 0 ≤ k) (hke : k % 2 = 0) :
    blur_filter_apply gaussianBlur b 4 = blur_filter_apply gaussianBlur b 5 ∧
    blur_kernel_size k = k + 1 ∧
    blur_kernel_size j % 2 = 1 ∧ 1 ≤ blur_kernel_size j := by
  refine ⟨?_, ?_, (blur_kernel_size_odd j).1, (blur_kernel_size_odd j).2⟩
  · have hk45 : blur_kernel_size 4 = blur_kernel_size 5 := by decide
    unfold blur_filter_apply
    rw [hk45]
  · simp only [blur_kernel_size, hke]
    norm_num
    omega

/-- C7 witness: evaluated at intensity 6 (even, nonnegative) and -9
(odd, negative) on the concrete buffer, with the Gaussian call
instantiated by an arbitrary concrete function. -/
theorem blur_even_intensity_promotion_witness :
    (0 : Int) ≤ 6 ∧ (6 : Int) % 2 = 0 ∧
    (blur_filter_apply (fun b _ => b) bufA 4 =
        blur_filter_apply (fun b _ => b) bufA 5 ∧
      blur_kernel_size 6 = 6 + 1 ∧
      blur_kernel_size (-9) % 2 = 1 ∧ 1 ≤ blur_kernel_size (-9)) :=
  ⟨by decide, by decide,
   blur_even_intensity_promotion (fun b _ => b) bufA 6 (-9)
     (by decide) (by decide)⟩

/-- Single-step characterization of a brightness preview update when an
image, a baseline and the registered filter are all present: the result
is computed from the baseline, and installed as the current buffer on
success, while the previous display is kept on a raised exception. -/
lemma on_brightness_change_run {α : Type} (app : AppState α) (img : Image)
    (base : Buffer) (f : FilterEntry α) (p : α)
    (h1 : app.fm.currentImage = some img)
    (h2 : app.originalForSliders = some base)
    (h3 : get_filter app.fm.registry "brightness" = some f) :
    on_brightness_change app p =
      match f.transform base p with
      | Except.ok rr =>
        { app with fm :=
            { app.fm with currentImage := some (img.setCurrent rr) } }
      | Except.error _ => app := by
  unfold on_brightness_change
  rw [h1, h2, h3]

/-- C8: within one preview gesture with a fixed baseline, every preview
update is computed from the baseline (the first update's display equals
the transform of the baseline), never from the current buffer; hence the
update sequence p1, p2, p1 leaves the displayed buffer equal to what a
single update with p1 against the same baseline produces. -/
theorem preview_update_idempotent {α : Type} (app : AppState α)
    (img : Image) (base r1 : Buffer) (f : FilterEntry α) (p1 p2 : α)
    (h1 : app.fm.currentImage = some img)
    (h2 : app.originalForSliders = some base)
    (h3 : get_filter app.fm.registry "brightness" = some f)
    (h4 : f.transform base p1 = Except.ok r1) :
    currentBuffer (on_brightness_change app p1).fm = some r1 ∧
    currentBuffer (on_brightness_change (on_brightness_change
        (on_brightness_change app p1) p2) p1).fm =
      currentBuffer (on_brightness_change app p1).fm := by
  have e1 := on_brightness_change_run app img base f p1 h1 h2 h3
  simp only [h4] at e1
  refine ⟨by rw [e1]; rfl, ?_⟩
  have e2 := on_brightness_change_run
    { app with fm :=
        { app.fm with currentImage := some (img.setCurrent r1) } }
    (img.setCurrent r1) base f p2 rfl h2 h3
  cases hp2 : f.transform base p2 with
  | ok r2 =>
    simp only [hp2] at e2
    have e3 := on_brightness_change_run
      { app with fm :=
          { app.fm with
              currentImage := some ((img.setCurrent r1).setCurrent r2) } }
      ((img.setCurrent r1).setCurrent r2) base f p1 rfl h2 h3
    simp only [h4] at e3
    rw [e1, e2, e3]
    rfl
  | error e =>
    simp only [hp2] at e2
    have e3 := on_brightness_change_run
      { app with fm :=
          { app.fm with currentImage := some (img.setCurrent r1) } }
      (img.setCurrent r1) base f p1 rfl h2 h3
    simp only [h4] at e3
    rw [e1, e2, e3]
    rfl

/-- Concrete brightness filter over integer kwargs for the preview
witness: adds the (clamped-to-Nat) value to every sample. -/
def brightenIntEntry : FilterEntry Int :=
  ⟨"Brightness",
   fun b v => Except.ok { b with data := b.data.map (fun x => x + v.toNat) }⟩

/-- Concrete GUI state over integer kwargs with the image opened. -/
def appInt : AppState Int :=
  open_image
    { fm := { registry := [("brightness", brightenIntEntry)], history := [],
              currentImage := none, undoStack := [], redoStack := [] },
      originalForSliders := none, blurSlider := 1, brightnessSlider := 0,
      contrastSlider := 1, resizeSlider := 100 }
    "photo.png" bufA

/-- C8 witness: the preview sequence value=10, value=30, value=10 shows
the same buffer as a single value=10 update over the same baseline. -/
theorem preview_update_idempotent_witness :
    appInt.fm.currentImage = some imgA ∧
    appInt.originalForSliders = some bufA ∧
    get_filter appInt.fm.registry "brightness" = some brightenIntEntry ∧
    brightenIntEntry.transform bufA 10 = Except.ok bufB ∧
    (currentBuffer (on_brightness_change appInt 10).fm = some bufB ∧
      currentBuffer (on_brightness_change (on_brightness_change
          (on_brightness_change appInt 10) 30) 10).fm =
        currentBuffer (on_brightness_change appInt 10).fm) :=
  ⟨rfl, rfl, rfl, rfl,
   preview_update_idempotent appInt imgA bufA bufB brightenIntEntry 10 30
     rfl rfl rfl rfl⟩

/-- C9 counterexample: after a dimension-changing committed resize
(2×2 document resized to 1×1), the current buffer and the original
buffer no longer have a matching dimension pair — the Document tracks
only the current buffer's shape while the original keeps its own. -/
theorem resize_dimension_mismatch_cex :
    (apply_filter fmR "resize" rzParams (some "width=1, height=1")).2 = true ∧
    fmRApplied.currentImage.map
        (fun i => ((i.current.width, i.current.height),
                   (i.original.width, i.original.height))) =
      some ((1, 1), (2, 2)) ∧
    ((1, 1) : Nat × Nat) ≠ ((2, 2) : Nat × Nat) := by
  refine ⟨?_, ?_, by decide⟩ <;> decide

/-- C9 amended: the document is never null across `apply_filter` (a
loaded image stays loaded), and the Document's cached `width`/`height`
pair always matches the CURRENT buffer's dimensions at every
observation point; the original buffer, however, keeps its own
dimensions, which can differ from the current buffer's after
dimension-changing committed edits such as resize. -/
theorem document_dims_track_current_buffer {α : Type} (m : ManagerState α)
    (key : String) (kwargs : α) (kwargsDesc : Option String) (img : Image)
    (h1 : m.currentImage = some img)
    (h2 : img.width = img.current.width ∧ img.height = img.current.height) :
    ∃ img',
      (apply_filter m key kwargs kwargsDesc).1.currentImage = some img' ∧
      img'.width = img'.current.width ∧
      img'.height = img'.current.height := by
  cases hr : apply_filter m key kwargs kwargsDesc with
  | mk m' r =>
    cases r with
    | true =>
      obtain ⟨img0, f, proc, hci, hf, ht, hm'⟩ := apply_filter_ok_inv hr
      refine ⟨img0.setCurrent proc, ?_, rfl, rfl⟩
      rw [hm']
    | false =>
      obtain ⟨_, hci, _, _, _⟩ := apply_filter_err_inv hr
      refine ⟨img, ?_, h2.1, h2.2⟩
      show m'.currentImage = some img
      rw [hci, h1]

/-- C9 witness: the amended invariant evaluated across the concrete
dimension-changing resize. -/
theorem document_dims_track_current_buffer_witness :
    fmR.currentImage = some imgA ∧
    (imgA.width = imgA.current.width ∧ imgA.height = imgA.current.height) ∧
    (∃ img',
      (apply_filter fmR "resize" rzParams
          (some "width=1, height=1")).1.currentImage = some img' ∧
      img'.width = img'.current.width ∧
      img'.height = img'.current.height) :=
  ⟨rfl, by decide,
   document_dims_track_current_buffer fmR "resize" rzParams
     (some "width=1, height=1") imgA rfl (by decide)⟩

/-- C2 counterexample: committing a slider preview gesture pushes
nothing onto the undo stack, appends no log entry, and a subsequent undo
is a no-op rather than restoring the pre-gesture buffer.  Concretely:
open the image, make one brightness preview update, commit — the undo
stack stays empty (not one entry), the log stays empty, and `undo`
returns `false` leaving the committed buffer displayed instead of the
pre-gesture buffer `bufA`. -/
theorem commit_pushes_no_undo_entry_cex :
    appOpened.fm.undoStack = [] ∧
    appCommitted.fm.undoStack.length = 0 ∧
    appCommitted.fm.undoStack.length ≠ appOpened.fm.undoStack.length + 1 ∧
    appCommitted.fm.history = [] ∧
    (undo appCommitted.fm).2 = false ∧
    currentBuffer (undo appCommitted.fm).1 = some bufB ∧
    some bufB ≠ some bufA := by
  refine ⟨?_, ?_, ?_, ?_, ?_, ?_, by decide⟩ <;> decide

/-- C2 amended: committing a preview gesture only folds the preview into
the baseline: it sets `_original_for_sliders` to the currently displayed
buffer and resets the sliders to their defaults, while the entire
manager state — undo stack, redo stack, operation log and document — is
left exactly unchanged; consequently the gesture never enters undo
history and a single undo after commit does not restore the pre-gesture
buffer. -/
theorem commit_slider_changes_spec {α : Type} (app : AppState α)
    (img : Image) (h : app.fm.currentImage = some img) :
    (commit_slider_changes app).fm = app.fm ∧
    (commit_slider_changes app).originalForSliders = some img.current ∧
    (commit_slider_changes app).blurSlider = 1 ∧
    (commit_slider_changes app).brightnessSlider = 0 ∧
    (commit_slider_changes app).contrastSlider = 1 ∧
    (commit_slider_changes app).resizeSlider = 100 := by
  unfold commit_slider_changes
  rw [h]
  exact ⟨rfl, rfl, rfl, rfl, rfl, rfl⟩

/-- C2 witness: the amended commit behavior evaluated on the concrete
previewed GUI state. -/
theorem commit_slider_changes_spec_witness :
    appPreviewed.fm.currentImage = some imgAB ∧
    ((commit_slider_changes appPreviewed).fm = appPreviewed.fm ∧
      (commit_slider_changes appPreviewed).originalForSliders =
        some imgAB.current ∧
      (commit_slider_changes appPreviewed).blurSlider = 1 ∧
      (commit_slider_changes appPreviewed).brightnessSlider = 0 ∧
      (commit_slider_changes appPreviewed).contrastSlider = 1 ∧
      (commit_slider_changes appPreviewed).resizeSlider = 100) :=
  ⟨by decide, commit_slider_changes_spec appPreviewed imgAB (by decide)⟩
